import Mathlib

/-!
Shallow embedding of `src/src/pages/BlogPage.tsx`: the paginated blog
listing page. The page consists of

* `BlogPage`, a controller holding five pieces of state
  (`posts`, `currentPage`, `totalPages`, `isLoading`, `error`) and an
  effect `fetchPosts` that runs on mount and on every change of
  `currentPage`;
* `ErrorBoundary`, a class component with a single boolean flag
  `hasError`, wrapping the populated subtree (the card grid or the
  empty-state message, and the pager).

The data source `getPosts` (from `@/lib/notion`) is external to the
repository; its outcomes are modelled as an `Except` value supplied by
the environment.  Rendering is modelled as a pure function from the
controller state, the boundary state and a fault predicate on posts
(which cards throw while rendering) to the displayed view.
-/

namespace BlogPage

/-- A post as far as the page logic is concerned: the controller only
uses `post.id` (as the stable list key); the display fields are opaque. -/
structure NotionPost where
  id : String
  deriving DecidableEq, Repr

/-- `const POSTS_PER_PAGE = 9` (line 9). -/
def POSTS_PER_PAGE : Nat := 9

/-- The five `useState` hooks of `BlogPage` (lines 40-44).
`error = none` models `error === null`. -/
structure PageState where
  posts : List NotionPost
  currentPage : Int
  totalPages : Int
  isLoading : Bool
  error : Option String
  deriving DecidableEq, Repr

/-- Initial hook values (lines 40-44): `posts = []`, `currentPage = 1`,
`totalPages = 0`, `isLoading = true`, `error = null`. -/
def initialState : PageState :=
  { posts := [], currentPage := 1, totalPages := 0, isLoading := true, error := none }

/-- The derived status of the spec data model: `Loading` when
`isLoading`, else `Error` when `error` is present, else `Ready` —
exactly the order the render expression tests the state (lines 86-98). -/
inductive Status where
  | Loading
  | Error
  | Ready
  deriving DecidableEq, Repr

def status (s : PageState) : Status :=
  if s.isLoading then .Loading
  else if s.error.isSome then .Error
  else .Ready

/-- The argument pair of the `getPosts(currentPage, POSTS_PER_PAGE)`
call (line 53). -/
structure FetchRequest where
  page : Int
  pageSize : Nat
  deriving DecidableEq, Repr

/-- A successful resolution of `getPosts`: `{ posts, totalPages }`
(line 53).  The external contract types `totalPages` merely as an
integer, so it is an `Int` here. -/
structure PostsResponse where
  posts : List NotionPost
  totalPages : Int
  deriving DecidableEq, Repr

/-- A fault raised by the data source; `fetchPosts` never inspects it,
so its content is an opaque message. -/
structure Fault where
  message : String
  deriving DecidableEq, Repr

/-- The fixed user-facing error string (line 59). -/
def errorText : String := "Failed to load blog posts. Please try again later."

/-- The synchronous prefix of `fetchPosts` (lines 48-53): set
`isLoading := true`, clear `posts`, clear `error`, and issue the request
`getPosts(currentPage, POSTS_PER_PAGE)`.  Returns the state visible
while the request is in flight together with the request issued. -/
def beginFetch (s : PageState) : PageState × FetchRequest :=
  ({ s with isLoading := true, posts := [], error := none },
   { page := s.currentPage, pageSize := POSTS_PER_PAGE })

/-- The success continuation of `fetchPosts` (lines 55-56) together
with the `finally` clause (line 61): `setPosts(newPosts)`,
`setTotalPages(total)`, `setIsLoading(false)`. -/
def settleSuccess (s : PageState) (r : PostsResponse) : PageState :=
  { s with posts := r.posts, totalPages := r.totalPages, isLoading := false }

/-- The `catch` branch of `fetchPosts` (lines 57-59) together with the
`finally` clause (line 61): `setError(fixed string)`,
`setIsLoading(false)`.  The fault itself is only logged, never read. -/
def settleFailure (s : PageState) (_f : Fault) : PageState :=
  { s with error := some errorText, isLoading := false }

/-- Settling of the in-flight request with the outcome chosen by the environment:
one event-loop continuation, so one atomic state transition. -/
def settle (s : PageState) (outcome : Except Fault PostsResponse) : PageState :=
  match outcome with
  | .ok r => settleSuccess s r
  | .error f => settleFailure s f

/-- One complete fetch cycle: the synchronous `fetchPosts` prefix, then
the settling of the request it issued. -/
def fetchCycle (s : PageState) (outcome : Except Fault PostsResponse) : PageState :=
  settle (beginFetch s).1 outcome

/-- `setCurrentPage p`, the callback handed to the pager (line 132). -/
def setPage (s : PageState) (p : Int) : PageState :=
  { s with currentPage := p }

/-- The states the view can observe during one fetch cycle: the state
before the cycle, the state after the synchronous `fetchPosts` prefix
(while the request is in flight), and the state after the settling
continuation.  Renders happen between event-loop continuations, never
inside one (spec section 5: single-threaded, cooperative, event-loop
driven), so these are the only three render-visible states of a cycle. -/
def cycleObservables (s : PageState) (outcome : Except Fault PostsResponse) :
    List PageState :=
  [s, (beginFetch s).1, fetchCycle s outcome]

/-! ### Trace semantics

Reachable controller states: sequences of page changes, fetch starts
and settlings applied to the initial state.  This over-approximates the
real execution order (a settle can appear without a preceding start),
which only enlarges the set of reachable states that the invariants
below are proved over. -/

deriving instance DecidableEq for Except

inductive Step where
  | changePage (p : Int)
  | startFetch
  | settleWith (outcome : Except Fault PostsResponse)
  deriving DecidableEq, Repr

def applyStep (s : PageState) : Step → PageState
  | .changePage p => setPage s p
  | .startFetch => (beginFetch s).1
  | .settleWith o => settle s o

def run (s : PageState) : List Step → PageState
  | [] => s
  | e :: es => run (applyStep s e) es

/-- The trace contains no successful settling. -/
def NoSuccess (tr : List Step) : Prop :=
  ∀ r : PostsResponse, Step.settleWith (Except.ok r) ∉ tr

/-- Every successful settling in the trace carries a non-negative
total-page count. -/
def ResponsesNonneg (tr : List Step) : Prop :=
  ∀ r : PostsResponse, Step.settleWith (Except.ok r) ∈ tr → 0 ≤ r.totalPages

/-! ### The error boundary (lines 12-37) -/

/-- The component state of `ErrorBoundary`: `state = { hasError: false }`
(line 13). -/
structure BoundaryState where
  hasError : Bool
  deriving DecidableEq, Repr

def boundaryInit : BoundaryState := { hasError := false }

/-- `static getDerivedStateFromError(error)` (lines 15-17): whatever
the error, the new state is `{ hasError: true }`. -/
def getDerivedStateFromError (_s : BoundaryState) : BoundaryState :=
  { hasError := true }

/-- The events in the lifetime of an `ErrorBoundary` instance: catching a
render fault from a descendant, or an ordinary re-render (which leaves
the state untouched — the class has no other `setState`). -/
inductive BoundaryEvent where
  | caughtFault
  | rerender
  deriving DecidableEq, Repr

def boundaryStep (s : BoundaryState) : BoundaryEvent → BoundaryState
  | .caughtFault => getDerivedStateFromError s
  | .rerender => s

def boundaryRun (s : BoundaryState) : List BoundaryEvent → BoundaryState
  | [] => s
  | e :: es => boundaryRun (boundaryStep s e) es

/-- The fixed fallback view rendered by a tripped boundary
(lines 26-32): heading plus explanatory text. -/
structure FallbackView where
  heading : String
  body : String
  deriving DecidableEq, Repr

def boundaryFallback : FallbackView :=
  { heading := "Something went wrong",
    body := "An error occurred while rendering the blog posts. Please try again later." }

/-- `ErrorBoundary.render` (lines 23-36): the fallback when tripped,
otherwise `this.props.children`. -/
inductive BoundaryOutput (α : Type) where
  | fallback (v : FallbackView)
  | children (c : α)
  deriving DecidableEq, Repr

def boundaryRender {α : Type} (s : BoundaryState) (c : α) : BoundaryOutput α :=
  if s.hasError then .fallback boundaryFallback else .children c

/-! ### Rendering the page -/

/-- The content of the subtree wrapped by the boundary when no render
fault occurs (lines 100-135): the card grid when `posts.length > 0`,
otherwise the empty-state message; and the pager exactly when
`totalPages > 1`. -/
structure ReadyContent where
  grid : Option (List NotionPost)
  emptyState : Bool
  pager : Option (Int × Int)
  deriving DecidableEq, Repr

def readyContent (s : PageState) : ReadyContent :=
  { grid := if s.posts.length > 0 then some s.posts else none,
    emptyState := decide (¬ s.posts.length > 0),
    pager := if 1 < s.totalPages then some (s.currentPage, s.totalPages) else none }

/-- The view produced by one render pass of `BlogPage` (lines 86-137). -/
inductive PageView where
  | loading
  | errorView (heading : String)
  | fallback (v : FallbackView)
  | ready (c : ReadyContent)
  deriving DecidableEq, Repr

/-- One render pass of `BlogPage` (lines 86-137), given the controller
state `s`, the boundary state `b` and the fault predicate of the environment
`faults` (which `BlogCard`s throw while rendering).  When a card throws
inside an untripped boundary, React applies `getDerivedStateFromError`
and re-renders the boundary, so the pass displays the fallback and
leaves the boundary tripped.  Returns the displayed view and the
boundary state after the pass. -/
def renderPage (faults : NotionPost → Bool) (s : PageState) (b : BoundaryState) :
    PageView × BoundaryState :=
  if s.isLoading then (.loading, b)
  else
    match s.error with
    | some e => (.errorView e, b)
    | none =>
      if b.hasError then (.fallback boundaryFallback, b)
      else if s.posts.any faults then
        (.fallback boundaryFallback, getDerivedStateFromError b)
      else (.ready (readyContent s), b)

/-- Whether the displayed view of a render pass contains the pager control. -/
def pagerRendered : PageView → Bool
  | .ready c => c.pager.isSome
  | _ => false

/-- Whether the displayed view of a render pass contains the card of `post`. -/
def itemRendered (v : PageView) (post : NotionPost) : Bool :=
  match v with
  | .ready c =>
    match c.grid with
    | some ps => ps.contains post
    | none => false
  | _ => false

/-! ### Helper lemmas (shared across claims) -/

/-- `status s = Ready` exactly when the state is neither loading nor
holds an error message. -/
theorem status_ready_iff (s : PageState) :
    status s = Status.Ready ↔ s.isLoading = false ∧ s.error = none := by
  unfold status
  cases s.isLoading <;> cases s.error <;> simp

/-- A tripped boundary stays tripped along any run of boundary events. -/
theorem boundaryRun_tripped (s : BoundaryState) (es : List BoundaryEvent)
    (h : s.hasError = true) : (boundaryRun s es).hasError = true := by
  induction es generalizing s with
  | nil => exact h
  | cons e es ih =>
    cases e with
    | caughtFault => exact ih _ rfl
    | rerender => exact ih _ h

/-- `totalPages` is non-negative along any run whose successful
settlings all carry non-negative totals. -/
theorem run_totalPages_nonneg (s : PageState) (tr : List Step) :
    0 ≤ s.totalPages → ResponsesNonneg tr → 0 ≤ (run s tr).totalPages := by
  induction tr generalizing s with
  | nil => intro h0 _; exact h0
  | cons e es ih =>
    intro h0 hnn
    refine ih (applyStep s e) ?_ (fun r hr => hnn r (List.mem_cons_of_mem _ hr))
    cases e with
    | changePage p => exact h0
    | startFetch => exact h0
    | settleWith o =>
      cases o with
      | ok r =>
        have := hnn r (List.mem_cons_self _ _)
        simpa [applyStep, settle, settleSuccess] using this
      | error f => simpa [applyStep, settle, settleFailure] using h0

/-- `totalPages` is untouched along any run with no successful
settling. -/
theorem run_totalPages_noSuccess (s : PageState) (tr : List Step) :
    NoSuccess tr → (run s tr).totalPages = s.totalPages := by
  induction tr generalizing s with
  | nil => intro _; rfl
  | cons e es ih =>
    intro hns
    have h1 : (applyStep s e).totalPages = s.totalPages := by
      cases e with
      | changePage p => rfl
      | startFetch => rfl
      | settleWith o =>
        cases o with
        | ok r => exact absurd (List.mem_cons_self _ _) (hns r)
        | error f => rfl
    rw [run, ih (applyStep s e) (fun r hm => hns r (List.mem_cons_of_mem _ hm)), h1]

/-! ### Claims about the fetch cycle -/

/-- C5: a successful resolution of the fetch returning the post list
`ps` and total-page count `t` leaves `posts = ps` (hence length `N` in
source order), `totalPages = t` and a `Ready` status. -/
theorem fetchCycle_success (s : PageState) (ps : List NotionPost) (t : Int) :
    (fetchCycle s (Except.ok { posts := ps, totalPages := t })).posts = ps ∧
    (fetchCycle s (Except.ok { posts := ps, totalPages := t })).posts.length = ps.length ∧
    (fetchCycle s (Except.ok { posts := ps, totalPages := t })).totalPages = t ∧
    status (fetchCycle s (Except.ok { posts := ps, totalPages := t })) = Status.Ready := by
  simp [fetchCycle, beginFetch, settle, settleSuccess, status]

/-- C4: every failing resolution of the fetch, whatever the fault,
leaves `posts` empty, an `Error` status, and the one fixed user-facing
string as the error message. -/
theorem fetchCycle_failure (s : PageState) (f : Fault) :
    (fetchCycle s (Except.error f)).posts = [] ∧
    status (fetchCycle s (Except.error f)) = Status.Error ∧
    (fetchCycle s (Except.error f)).error = some errorText := by
  simp [fetchCycle, beginFetch, settle, settleFailure, status]

/-- C10: a fetch cycle settling in failure leaves `totalPages` and
`currentPage` exactly as they were before the cycle; it writes only
`posts` (cleared), the error message and the loading flag. -/
theorem fetchCycle_failure_frame (s : PageState) (f : Fault) :
    (fetchCycle s (Except.error f)).totalPages = s.totalPages ∧
    (fetchCycle s (Except.error f)).currentPage = s.currentPage ∧
    (fetchCycle s (Except.error f)).posts = [] ∧
    (fetchCycle s (Except.error f)).error = some errorText ∧
    (fetchCycle s (Except.error f)).isLoading = false := by
  simp [fetchCycle, beginFetch, settle, settleFailure]

/-- C9: running the same fetch cycle twice in succession, with the data
source resolving identically both times, yields the same final state
after the second cycle as after the first. -/
theorem fetchCycle_idempotent (s : PageState) (o : Except Fault PostsResponse) :
    fetchCycle (fetchCycle s o) o = fetchCycle s o := by
  cases o with
  | ok r => simp [fetchCycle, beginFetch, settle, settleSuccess]
  | error f => simp [fetchCycle, beginFetch, settle, settleFailure]

/-- C2: every render-visible state of a fetch cycle shows either the
full pre-cycle pair `(posts, totalPages)`, the loading pair (posts
cleared, totalPages still pre-cycle), or the full post-cycle pair —
never the new value of one of the two with the stale value of the
other. -/
theorem fetchCycle_pair_atomic (s s' : PageState) (o : Except Fault PostsResponse)
    (h : s' ∈ cycleObservables s o) :
    (s'.posts = s.posts ∧ s'.totalPages = s.totalPages) ∨
    (s'.posts = [] ∧ s'.totalPages = s.totalPages) ∨
    (s'.posts = (fetchCycle s o).posts ∧ s'.totalPages = (fetchCycle s o).totalPages) := by
  simp only [cycleObservables, List.mem_cons, List.mem_singleton, List.not_mem_nil,
    or_false] at h
  rcases h with rfl | rfl | rfl
  · exact Or.inl ⟨rfl, rfl⟩
  · exact Or.inr (Or.inl ⟨rfl, rfl⟩)
  · exact Or.inr (Or.inr ⟨rfl, rfl⟩)

theorem fetchCycle_pair_atomic_witness :
    (fetchCycle initialState (Except.ok { posts := [{ id := "p1" }], totalPages := 2 }) ∈
      cycleObservables initialState (Except.ok { posts := [{ id := "p1" }], totalPages := 2 })) ∧
    (((fetchCycle initialState (Except.ok { posts := [{ id := "p1" }], totalPages := 2 })).posts =
        initialState.posts ∧
      (fetchCycle initialState (Except.ok { posts := [{ id := "p1" }], totalPages := 2 })).totalPages =
        initialState.totalPages) ∨
    ((fetchCycle initialState (Except.ok { posts := [{ id := "p1" }], totalPages := 2 })).posts = [] ∧
      (fetchCycle initialState (Except.ok { posts := [{ id := "p1" }], totalPages := 2 })).totalPages =
        initialState.totalPages) ∨
    ((fetchCycle initialState (Except.ok { posts := [{ id := "p1" }], totalPages := 2 })).posts =
        (fetchCycle initialState (Except.ok { posts := [{ id := "p1" }], totalPages := 2 })).posts ∧
      (fetchCycle initialState (Except.ok { posts := [{ id := "p1" }], totalPages := 2 })).totalPages =
        (fetchCycle initialState (Except.ok { posts := [{ id := "p1" }], totalPages := 2 })).totalPages)) := by
  refine ⟨by simp [cycleObservables], ?_⟩
  exact fetchCycle_pair_atomic initialState _ _ (by simp [cycleObservables])

/-- C6: on mount and on every change of `currentPage` to a page `p ≥ 1`,
the synchronous prefix of the fetch clears `posts`, clears the error
message, puts the state in `Loading`, and issues the request
`(p, pageSize = 9)`. -/
theorem beginFetch_enters_loading (s : PageState) (p : Int) (_h : 1 ≤ p) :
    ((beginFetch (setPage s p)).1.posts = [] ∧
     (beginFetch (setPage s p)).1.error = none ∧
     status (beginFetch (setPage s p)).1 = Status.Loading ∧
     (beginFetch (setPage s p)).2 = { page := p, pageSize := 9 }) ∧
    ((beginFetch initialState).1.posts = [] ∧
     (beginFetch initialState).1.error = none ∧
     status (beginFetch initialState).1 = Status.Loading ∧
     (beginFetch initialState).2 = { page := 1, pageSize := 9 }) := by
  refine ⟨⟨rfl, rfl, rfl, ?_⟩, ⟨rfl, rfl, rfl, rfl⟩⟩
  simp [beginFetch, setPage, POSTS_PER_PAGE]

theorem beginFetch_enters_loading_witness :
    (1 : Int) ≤ 2 ∧
    (((beginFetch (setPage initialState 2)).1.posts = [] ∧
      (beginFetch (setPage initialState 2)).1.error = none ∧
      status (beginFetch (setPage initialState 2)).1 = Status.Loading ∧
      (beginFetch (setPage initialState 2)).2 = { page := 2, pageSize := 9 }) ∧
     ((beginFetch initialState).1.posts = [] ∧
      (beginFetch initialState).1.error = none ∧
      status (beginFetch initialState).1 = Status.Loading ∧
      (beginFetch initialState).2 = { page := 1, pageSize := 9 })) :=
  ⟨by decide, beginFetch_enters_loading initialState 2 (by decide)⟩

/-- C7: once the boundary has tripped, it stays tripped along every
subsequent run of its events, every subsequent render produces the
fixed fallback view instead of the wrapped subtree, and no step of the
boundary machine resets the tripped flag. -/
theorem boundary_never_untrips (s : BoundaryState) (es : List BoundaryEvent)
    (h : s.hasError = true) :
    (boundaryRun s es).hasError = true ∧
    (∀ c : ReadyContent, boundaryRender (boundaryRun s es) c =
      BoundaryOutput.fallback boundaryFallback) ∧
    (∀ e : BoundaryEvent, (boundaryStep s e).hasError = true) := by
  refine ⟨boundaryRun_tripped s es h, ?_, ?_⟩
  · intro c
    simp [boundaryRender, boundaryRun_tripped s es h]
  · intro e
    cases e with
    | caughtFault => rfl
    | rerender => exact h

theorem boundary_never_untrips_witness :
    ({ hasError := true } : BoundaryState).hasError = true ∧
    ((boundaryRun { hasError := true } [BoundaryEvent.rerender]).hasError = true ∧
     (∀ c : ReadyContent, boundaryRender (boundaryRun { hasError := true } [BoundaryEvent.rerender]) c =
       BoundaryOutput.fallback boundaryFallback) ∧
     (∀ e : BoundaryEvent, (boundaryStep { hasError := true } e).hasError = true)) :=
  ⟨rfl, boundary_never_untrips { hasError := true } [BoundaryEvent.rerender] rfl⟩

/-! ### Claims about rendering with the fault boundary -/

/-- Two concrete posts and a fault predicate under which only the first
one throws while rendering, for concrete render scenarios. -/
def postA : NotionPost := { id := "a" }

def postB : NotionPost := { id := "b" }

def faultsA : NotionPost → Bool := fun p => p.id == "a"

/-- A concrete `Ready` state: two posts, page 2 of 3. -/
def readyTwoPosts : PageState :=
  { posts := [postA, postB], currentPage := 2, totalPages := 3,
    isLoading := false, error := none }

/-- C1 counterexample: in a `Ready` state with posts `a` and `b` where
only the renderer of `a` throws, the sibling card `b` is NOT rendered
and the pager is NOT rendered — the single boundary wrapping the whole
grid and pager replaces everything with the fallback, contradicting the
claim that only the faulting item is replaced. -/
theorem singleFault_blanks_siblings_and_pager :
    status readyTwoPosts = Status.Ready ∧
    faultsA postA = true ∧ faultsA postB = false ∧
    (renderPage faultsA readyTwoPosts boundaryInit).1 = PageView.fallback boundaryFallback ∧
    itemRendered (renderPage faultsA readyTwoPosts boundaryInit).1 postB = false ∧
    pagerRendered (renderPage faultsA readyTwoPosts boundaryInit).1 = false := by
  decide

/-- C1 amended: if the renderer of any displayed item throws during the
render phase of a `Ready` state, the boundary replaces its entire
wrapped subtree — the whole card grid and the pager — with the
fault-fallback view, and the boundary is left tripped. -/
theorem fault_replaces_whole_subtree (faults : NotionPost → Bool) (s : PageState)
    (b : BoundaryState) (hb : b.hasError = false) (hs : status s = Status.Ready)
    (hf : s.posts.any faults = true) :
    (renderPage faults s b).1 = PageView.fallback boundaryFallback ∧
    (renderPage faults s b).2.hasError = true := by
  obtain ⟨hl, he⟩ := (status_ready_iff s).1 hs
  simp [renderPage, hl, he, hf, hb, getDerivedStateFromError]

theorem fault_replaces_whole_subtree_witness :
    (boundaryInit.hasError = false ∧ status readyTwoPosts = Status.Ready ∧
     readyTwoPosts.posts.any faultsA = true) ∧
    ((renderPage faultsA readyTwoPosts boundaryInit).1 = PageView.fallback boundaryFallback ∧
     (renderPage faultsA readyTwoPosts boundaryInit).2.hasError = true) :=
  ⟨⟨by decide, by decide, by decide⟩,
   fault_replaces_whole_subtree faultsA readyTwoPosts boundaryInit (by decide) (by decide)
     (by decide)⟩

/-- C3 counterexample: with the boundary tripped (after a card of the
current post list threw on the previous render pass), the state still
has `status = Ready` and `totalPages > 1`, yet the pager is not
rendered — refuting the claimed equivalence in tripped states. -/
theorem pager_iff_fails_when_tripped :
    status readyTwoPosts = Status.Ready ∧ 1 < readyTwoPosts.totalPages ∧
    pagerRendered (renderPage faultsA readyTwoPosts { hasError := true }).1 = false := by
  decide

/-- C3 amended: the pager is rendered exactly when `status = Ready`,
`totalPages > 1`, and the fault boundary is untripped after the render
pass (it was untripped before and no displayed item faulted). -/
theorem pager_rendered_iff (faults : NotionPost → Bool) (s : PageState)
    (b : BoundaryState) :
    pagerRendered (renderPage faults s b).1 = true ↔
      (status s = Status.Ready ∧ 1 < s.totalPages ∧
       (renderPage faults s b).2.hasError = false) := by
  cases hl : s.isLoading with
  | true => simp [renderPage, status, pagerRendered, hl]
  | false =>
    cases he : s.error with
    | some msg => simp [renderPage, status, pagerRendered, hl, he]
    | none =>
      cases hb : b.hasError with
      | true => simp [renderPage, status, pagerRendered, hl, he, hb]
      | false =>
        cases hf : s.posts.any faults with
        | true =>
          simp [renderPage, status, pagerRendered, hl, he, hb, hf,
            getDerivedStateFromError]
        | false =>
          have hready : status s = Status.Ready := by simp [status, hl, he]
          have hpair : renderPage faults s b = (.ready (readyContent s), b) := by
            simp [renderPage, hl, he, hb, hf]
          rw [hpair]
          simp only [pagerRendered, readyContent, hready, hb, true_and, and_true]
          split <;> simp_all

/-! ### Claims about `totalPages` along traces -/

/-- C8 counterexample: the controller stores the response total
unvalidated, so a successful settling whose total-page count is `-1`
(the external contract types it only as an integer) makes
`totalPages = -1` reachable, refuting unconditional non-negativity. -/
theorem totalPages_negative_reachable :
    (run initialState
      [Step.startFetch, Step.settleWith (Except.ok { posts := [], totalPages := -1 })]).totalPages
      < 0 := by
  decide

/-- C8 amended: provided every successful settling in the trace carries
a non-negative total, `totalPages` is non-negative in every reachable
state; it is `0` in every reachable state before the first successful
fetch completes; and no step other than a successful settling writes
it. -/
theorem totalPages_invariants (tr : List Step) (hnn : ResponsesNonneg tr) :
    0 ≤ (run initialState tr).totalPages ∧
    (NoSuccess tr → (run initialState tr).totalPages = 0) ∧
    (∀ (s : PageState) (e : Step),
      (∀ r : PostsResponse, e ≠ Step.settleWith (Except.ok r)) →
      (applyStep s e).totalPages = s.totalPages) := by
  refine ⟨run_totalPages_nonneg initialState tr (by decide) hnn, ?_, ?_⟩
  · intro hns
    exact run_totalPages_noSuccess initialState tr hns
  · intro s e hne
    cases e with
    | changePage p => rfl
    | startFetch => rfl
    | settleWith o =>
      cases o with
      | ok r => exact absurd rfl (hne r)
      | error f => rfl

theorem totalPages_invariants_witness :
    ResponsesNonneg [Step.startFetch, Step.settleWith (Except.error { message := "boom" })] ∧
    0 ≤ (run initialState
      [Step.startFetch, Step.settleWith (Except.error { message := "boom" })]).totalPages := by
  have hnn : ResponsesNonneg
      [Step.startFetch, Step.settleWith (Except.error { message := "boom" })] := by
    intro r hr
    simp [List.mem_cons] at hr
  exact ⟨hnn, (totalPages_invariants _ hnn).1⟩

end BlogPage
